import Mathlib

/-!
Verification development for the Linear-Github-MCP research pipeline.

This file is a shallow embedding of the repository's crew orchestration code:

* `src/crew/research.py` — the `LinearTool` / `GitHubTool` credential wrappers,
  the three crewai tool functions defined inside `run_research_crew`, and the
  four-stage pipeline of `run_research_crew` itself;
* `src/crew/agents.py` — the four agent factories;
* `src/crew/tasks.py` — the four task (stage instruction) builders;
* `src/server.py` — the `research_task` MCP entry point.

External collaborators (the HTTP clients, the crewai reasoning layer, the
`@tool` decorator of `crewai.tools`, the `SerperDevTool` constructor, the
keycardai access context) are modelled as oracles: values or functions supplied
as parameters, so every possible outcome of a collaborator is a point in the
quantification space of the theorems.  Python exceptions are modelled with
`Except`; Python dict/list/str values with the `PyVal` family.
-/

namespace LinearGithubMCP

/- Python values as they appear in this code base: results of
`response.json()` and the dict/list payloads the tool wrappers build.
`PyList` and `PyDict` are unrolled list types so that all recursion over
`PyVal` is mutual structural recursion. -/
mutual

inductive PyVal where
| str : String → PyVal
| int : Int → PyVal
| bool : Bool → PyVal
| list : PyList → PyVal
| dict : PyDict → PyVal

inductive PyList where
| nil : PyList
| cons : PyVal → PyList → PyList

inductive PyDict where
| nil : PyDict
| cons : String → PyVal → PyDict → PyDict

end

/-- Python exceptions that the modelled fragments can raise. -/
inductive PyExn where
| keyError : PyExn
| typeError : PyExn
| attributeError : PyExn
deriving DecidableEq

/- Rendering of a Python value by `str(...)`, as used by the tool wrappers in
`run_research_crew` (`return str(result)`).  Mirrors CPython's rendering of
dicts and lists of plain values; escaping inside string payloads is not
modelled. -/
mutual

def pyRepr : PyVal → String
| .str s => "\x27" ++ s ++ "\x27"
| .int n => toString n
| .bool b => if b then "True" else "False"
| .list xs => "[" ++ pyReprList xs ++ "]"
| .dict d => "\x7b" ++ pyReprDict d ++ "\x7d"

def pyReprList : PyList → String
| .nil => ""
| .cons x .nil => pyRepr x
| .cons x xs => pyRepr x ++ ", " ++ pyReprList xs

def pyReprDict : PyDict → String
| .nil => ""
| .cons k v .nil => "\x27" ++ k ++ "\x27: " ++ pyRepr v
| .cons k v d => "\x27" ++ k ++ "\x27: " ++ pyRepr v ++ ", " ++ pyReprDict d

end

/-- Lookup in a modelled Python dict (first binding wins, as dict keys are
unique in the payloads this code builds). -/
def dictFind : PyDict → String → Option PyVal
| .nil, _ => none
| .cons k v d, key => if k = key then some v else dictFind d key

/-- Python subscript `v[key]`: `KeyError` when the key is absent, `TypeError`
when the value is not a dict. -/
def pySubscript (v : PyVal) (key : String) : Except PyExn PyVal :=
  match v with
  | .dict d =>
    match dictFind d key with
    | some x => .ok x
    | none => .error .keyError
  | _ => .error .typeError

/-- Python `v.get(key, default)`: total on dicts, `AttributeError` on any
other value. -/
def pyGetD (v : PyVal) (key : String) (dflt : PyVal) : Except PyExn PyVal :=
  match v with
  | .dict d => .ok ((dictFind d key).getD dflt)
  | _ => .error .attributeError

/-- An HTTP request as assembled by the wrappers in `src/crew/research.py`:
url, headers, query params, and for the Linear GraphQL call the posted
(query, identifier-variable) body. -/
structure HttpRequest where
  url : String
  headers : List (String × String)
  params : List (String × String)
  body : Option (String × String)

/-- An HTTP response as consumed by the wrappers: the status code and the
already-parsed JSON body (`response.json()`). -/
structure HttpResponse where
  status : Nat
  json : PyVal

/-- The network is an oracle mapping each request to the response the external
service produces for it. -/
def Http : Type := HttpRequest → HttpResponse

/-- Wrapper class `LinearTool` of `src/crew/research.py`: holds the Linear
OAuth token. -/
structure LinearTool where
  token : String

/-- The GraphQL issue query string sent by `LinearTool.get_task`. -/
def linearIssueQuery : String :=
  "\n        query($identifier: String!) \x7b\n            issue(id: $identifier) \x7b\n                id\n                identifier\n                title\n                description\n                state \x7b id name \x7d\n                priority\n                labels \x7b nodes \x7b name \x7d \x7d\n                assignee \x7b name email \x7d\n                project \x7b name \x7d\n                team \x7b id name \x7d\n                comments \x7b nodes \x7b body user \x7b name \x7d createdAt \x7d \x7d\n            \x7d\n        \x7d\n        "

/-- The request `LinearTool.get_task` posts: credential in the Authorization
header, query plus identifier variable in the body. -/
def LinearTool.taskRequest (lt : LinearTool) (identifier : String) : HttpRequest :=
  { url := "https://api.linear.app/graphql"
    headers := [("Authorization", "Bearer " ++ lt.token), ("Content-Type", "application/json")]
    params := []
    body := some (linearIssueQuery, identifier) }

/-- Method `LinearTool.get_task`: posts the GraphQL query and returns
`response.json()` unconditionally — no status check, no exception path of its
own (responses are modelled post-parse). -/
def LinearTool.get_task (lt : LinearTool) (http : Http) (identifier : String) : PyVal :=
  (http (lt.taskRequest identifier)).json

/-- Wrapper class `GitHubTool` of `src/crew/research.py`: holds the GitHub
OAuth token; `headers` is derived from it exactly as in `__init__`. -/
structure GitHubTool where
  token : String

/-- The headers field assembled in `GitHubTool.__init__`. -/
def GitHubTool.headers (g : GitHubTool) : List (String × String) :=
  [("Authorization", "Bearer " ++ g.token),
   ("Accept", "application/vnd.github+json"),
   ("X-GitHub-Api-Version", "2022-11-28")]

/-- The GET request issued by `GitHubTool.get_structure`. -/
def GitHubTool.structureRequest (g : GitHubTool) (owner repo path : String) : HttpRequest :=
  { url := "https://api.github.com/repos/" ++ owner ++ "/" ++ repo ++ "/contents/" ++ path
    headers := g.headers
    params := []
    body := none }

/-- The GET request issued by `GitHubTool.read_file` (the `ref` query
parameter defaults to "main" at the call sites in this repository). -/
def GitHubTool.fileRequest (g : GitHubTool) (owner repo path ref : String) : HttpRequest :=
  { url := "https://api.github.com/repos/" ++ owner ++ "/" ++ repo ++ "/contents/" ++ path
    headers := g.headers
    params := [("ref", ref)]
    body := none }

/-- The list comprehension in `GitHubTool.get_structure`:
`[{"name": f["name"], "type": f["type"], "path": f["path"]} for f in data]`.
Subscripting can raise `KeyError`/`TypeError` on unexpected entries. -/
def structureFiles : PyList → Except PyExn PyList
| .nil => .ok .nil
| .cons f fs => do
  let nm ← pySubscript f "name"
  let ty ← pySubscript f "type"
  let pa ← pySubscript f "path"
  let rest ← structureFiles fs
  pure (.cons (.dict (.cons "name" nm (.cons "type" ty (.cons "path" pa .nil)))) rest)

/-- Method `GitHubTool.get_structure`: on a 200 response, reshape a JSON list
into a files dict and pass any other JSON through; on every other status code
return the dict `\x7b"error": f"Status \x7bstatus\x7d"\x7d` instead of raising. -/
def GitHubTool.get_structure (g : GitHubTool) (http : Http) (owner repo path : String) :
    Except PyExn PyVal :=
  let response := http (g.structureRequest owner repo path)
  if response.status = 200 then
    match response.json with
    | .list files => (structureFiles files).map fun fs => .dict (.cons "files" (.list fs) .nil)
    | data => .ok data
  else
    .ok (.dict (.cons "error" (.str ("Status " ++ toString response.status)) .nil))

/-- Method `GitHubTool.read_file`: on a 200 response, base64-decode the
`content` field (`b64` models `base64.b64decode(...).decode("utf-8")`, which
may raise); on every other status code return the error dict instead of
raising. -/
def GitHubTool.read_file (g : GitHubTool) (http : Http) (b64 : String → Except PyExn String)
    (owner repo path ref : String) : Except PyExn PyVal :=
  let response := http (g.fileRequest owner repo path ref)
  if response.status = 200 then
    (pyGetD response.json "content" (.str "")).bind fun contentField =>
      (match contentField with
       | .str c => (b64 c).map fun content =>
           .dict (.cons "path" (.str path) (.cons "content" (.str content) .nil))
       | _ => .error .typeError)
  else
    .ok (.dict (.cons "error" (.str ("Status " ++ toString response.status)) .nil))

/-- Body of the `@tool("get_linear_task")` function defined inside
`run_research_crew`: call the wrapper, render the result with `str`. -/
def get_linear_task_tool_run (lt : LinearTool) (http : Http) (identifier : String) : String :=
  pyRepr (lt.get_task http identifier)

/-- Body of the `@tool("get_repo_structure")` function defined inside
`run_research_crew` (owner and repo are closed over from the pipeline
arguments). -/
def get_repo_structure_tool_run (g : GitHubTool) (http : Http) (owner repo path : String) :
    Except PyExn String :=
  (g.get_structure http owner repo path).map pyRepr

/-- Body of the `@tool("read_file")` function defined inside
`run_research_crew` (ref takes its default "main"). -/
def read_file_tool_run (g : GitHubTool) (http : Http) (b64 : String → Except PyExn String)
    (owner repo path : String) : Except PyExn String :=
  (g.read_file http b64 owner repo path "main").map pyRepr

/-- A crewai tool as the reasoning layer sees it: an identity made of the
`@tool(name)` decorator argument and the docstring description.  The invoke
behaviour of the three repository tools is modelled by the `*_tool_run`
functions above; the credential-bearing wrappers stay outside this value. -/
structure Tool where
  name : String
  description : String
deriving DecidableEq

/-- The `@tool("get_linear_task")` value built on every run. -/
def get_linear_task_tool : Tool :=
  { name := "get_linear_task"
    description := "Get Linear task details by identifier (e.g., \x27ENG-123\x27)." }

/-- The `@tool("get_repo_structure")` value built on every run. -/
def get_repo_structure_tool : Tool :=
  { name := "get_repo_structure"
    description := "Get GitHub repository structure. Path is optional subdirectory." }

/-- The `@tool("read_file")` value built on every run. -/
def read_file_tool : Tool :=
  { name := "read_file"
    description := "Read file contents from GitHub repository." }

/-- A crewai `Agent` as constructed in `src/crew/agents.py`. -/
structure Agent where
  role : String
  goal : String
  backstory : String
  tools : List Tool
  verbose : Bool
  allow_delegation : Bool
deriving DecidableEq

/-- Factory `create_task_analyst` of `src/crew/agents.py`. -/
def create_task_analyst (linear_tools : List Tool) : Agent :=
  { role := "Task Requirements Analyst"
    goal := "Thoroughly analyze Linear tasks to extract clear, actionable requirements"
    backstory := "You are an expert product analyst who excels at breaking down\n        technical tasks into clear requirements. You understand both the explicit\n        requests and implicit expectations in task descriptions. You always identify\n        acceptance criteria, edge cases, and potential blockers."
    tools := linear_tools
    verbose := true
    allow_delegation := false }

/-- Factory `create_code_analyst` of `src/crew/agents.py`. -/
def create_code_analyst (github_tools : List Tool) : Agent :=
  { role := "Codebase Analyst"
    goal := "Find and understand relevant code patterns, structures, and conventions in the repository"
    backstory := "You are a senior software engineer with expertise in reading and\n        understanding codebases quickly. You can identify relevant files, understand\n        existing patterns, and find code that relates to a given task. You excel at\n        providing context about how new code should fit into existing architecture."
    tools := github_tools
    verbose := true
    allow_delegation := false }

/-- Factory `create_researcher` of `src/crew/agents.py`. -/
def create_researcher (search_tools : List Tool) : Agent :=
  { role := "Technical Researcher"
    goal := "Find best practices, patterns, and solutions relevant to the implementation task"
    backstory := "You are a technical researcher who stays up-to-date with modern\n        software development practices. You know how to find relevant documentation,\n        tutorials, and examples. You can synthesize information from multiple sources\n        into actionable recommendations."
    tools := search_tools
    verbose := true
    allow_delegation := false }

/-- Factory `create_planner` of `src/crew/agents.py` — tools is the empty
list: the planner only synthesizes text from context. -/
def create_planner : Agent :=
  { role := "Implementation Planner"
    goal := "Create a detailed, actionable implementation plan from research findings"
    backstory := "You are a technical lead who excels at creating clear implementation\n        plans. You take input from analysts and researchers and synthesize it into a\n        step-by-step plan that any developer can follow. You consider edge cases,\n        testing requirements, and potential pitfalls."
    tools := []
    verbose := true
    allow_delegation := false }

/-- A crewai `Task` as constructed in `src/crew/tasks.py`: the rendered
instruction (`description`, an f-string fully interpolated at construction),
the expected-output contract, and the agent assigned to it. -/
structure Task where
  description : String
  expected_output : String
  agent : Agent
deriving DecidableEq

/-- Builder `create_task_analysis_task` of `src/crew/tasks.py`. -/
def create_task_analysis_task (agent : Agent) (task_identifier : String) : Task :=
  { description :=
      "Analyze the Linear task \x27" ++ task_identifier ++ "\x27 to understand:\n\n        1. What is being requested (the core feature/fix)\n        2. Any specific requirements mentioned\n        3. Acceptance criteria (explicit or implied)\n        4. Dependencies or blockers mentioned\n        5. Related context from comments or linked items\n\n        Use the get_linear_task tool to fetch the task details.\n\n        Provide a structured summary with:\n        - Task summary (1-2 sentences)\n        - Requirements list\n        - Acceptance criteria\n        - Potential challenges\n        "
    expected_output := "A structured analysis including:\n        - Clear task summary\n        - Numbered list of requirements\n        - Acceptance criteria checklist\n        - Identified challenges or considerations"
    agent := agent }

/-- Builder `create_code_exploration_task` of `src/crew/tasks.py` — the
upstream task-analysis result is interpolated verbatim. -/
def create_code_exploration_task (agent : Agent) (owner repo task_context : String) : Task :=
  { description :=
      "Based on this task analysis:\n\n        " ++ task_context ++ "\n\n        Explore the repository " ++ owner ++ "/" ++ repo ++ " to find:\n\n        1. Files most relevant to implementing this task\n        2. Existing patterns and conventions to follow\n        3. Related code that the new implementation should integrate with\n        4. Test patterns used in similar areas\n\n        Use get_repo_structure to explore directories and read_file to examine\n        specific files. Start with the root structure, then navigate to relevant\n        areas based on the task requirements.\n\n        Provide code snippets and file paths for relevant examples.\n        "
    expected_output := "A code context report including:\n        - List of relevant files with their purpose\n        - Key code patterns to follow (with snippets)\n        - Integration points for the new code\n        - Test patterns to use"
    agent := agent }

/-- Builder `create_research_task` of `src/crew/tasks.py` — the task-analysis
result is interpolated verbatim. -/
def create_research_task (agent : Agent) (task_context : String) : Task :=
  { description :=
      "Based on this task:\n\n        " ++ task_context ++ "\n\n        Research best practices and patterns for implementation:\n\n        1. Search for relevant documentation or guides\n        2. Find examples of similar implementations\n        3. Identify common pitfalls to avoid\n        4. Look for testing strategies\n\n        Focus on practical, actionable information that will help\n        with the implementation.\n        "
    expected_output := "Research findings including:\n        - Best practices for this type of implementation\n        - Recommended patterns with rationale\n        - Common pitfalls and how to avoid them\n        - Testing recommendations"
    agent := agent }

/-- Builder `create_planning_task` of `src/crew/tasks.py` — all three prior
stage results are interpolated verbatim. -/
def create_planning_task (agent : Agent) (task_analysis code_context research : String) : Task :=
  { description :=
      "Create a detailed implementation plan using this information:\n\n        ## Task Analysis\n        " ++ task_analysis ++ "\n\n        ## Code Context\n        " ++ code_context ++ "\n\n        ## Research Findings\n        " ++ research ++ "\n\n        Create an actionable implementation plan that includes:\n\n        1. **Prerequisites**: Any setup or dependencies needed first\n        2. **Implementation Steps**: Numbered steps with specific details\n           - Which files to create/modify\n           - What code patterns to use\n           - Integration points\n        3. **Testing Plan**: How to test the implementation\n        4. **Edge Cases**: Specific edge cases to handle\n        5. **Gotchas**: Potential issues to watch out for\n\n        Be specific enough that a developer can follow this plan\n        without needing to ask clarifying questions.\n        "
    expected_output := "A comprehensive implementation plan with:\n\n        ## Summary\n        Brief overview of what will be implemented\n\n        ## Prerequisites\n        - List of setup steps if needed\n\n        ## Implementation Steps\n        1. First step with details\n        2. Second step with details\n        ...\n\n        ## Files to Create/Modify\n        - file/path.py - description of changes\n\n        ## Testing Plan\n        - Unit tests to write\n        - Integration tests\n        - Manual testing steps\n\n        ## Edge Cases\n        - Edge case 1 and how to handle\n\n        ## Potential Gotchas\n        - Thing to watch out for"
    agent := agent }

/-- A crewai `Crew` as assembled in `run_research_crew`.  Every crew in this
module is created with `process=Process.sequential, verbose=True`, so those
two constant fields are omitted. -/
structure Crew where
  agents : List Agent
  tasks : List Task
deriving DecidableEq

/-- The external collaborators a pipeline run interacts with:

* `toolCtorFails n` — whether the `@tool(n)` decorator application (external
  crewai code) raises for the tool named `n`; the source has no handler
  around these three constructions, so a failure propagates out of
  `run_research_crew` before any crew is created;
* `serperCtor` — the outcome of `SerperDevTool()` (raises when
  `SERPER_API_KEY` is missing, or for any other constructor bug);
* `kickoff` — the reasoning layer: `Crew.kickoff()` for a given crew either
  returns the stage's textual result (`str(result)` already applied) or
  raises with some message. -/
structure Env where
  toolCtorFails : String → Bool
  serperCtor : Except String Tool
  kickoff : Crew → Except String String

/-- Typed errors crossing the pipeline boundary.  In the Python source both
are raw propagated exceptions; the constructor names follow the error kinds
the orchestration distinguishes: a required tool that could not be built
before any stage ran, and a reasoning-layer failure inside a stage. -/
inductive PipeError where
| capabilityUnavailable : String → PipeError
| stageExecutionFailure : String → PipeError
deriving DecidableEq

/-- Message text `str(e)` of a propagated pipeline exception, as interpolated
by the server's handler. -/
def pipeErrorMsg : PipeError → String
| .capabilityUnavailable n => n
| .stageExecutionFailure m => m

/-- Observable events of one run, in program order: the credential wrappers
being built, a stage instruction (task) being constructed, and a crew being
handed to the reasoning layer together with its outcome. -/
inductive Event where
| wrapperBuilt : LinearTool → GitHubTool → Event
| taskBuilt : Task → Event
| crewRun : Crew → Except String String → Event

/-- Python `list.insert(n, a)` as used for `crew_agents.insert(2, researcher)`. -/
def listInsert (n : Nat) (a : α) : List α → List α
| l =>
  match n, l with
  | 0, l => a :: l
  | _ + 1, [] => [a]
  | n + 1, x :: xs => x :: listInsert n a xs

/-- Lines 159–165 of `src/crew/research.py`: the optional search tool list.
`try: search_tools = [SerperDevTool()] except Exception: pass` — any
construction exception is swallowed and leaves the list empty. -/
def searchToolsOf (env : Env) (enable_web_search : Bool) : List Tool :=
  if enable_web_search then
    match env.serperCtor with
    | .ok t => [t]
    | .error _ => []
  else []

/-- Line 169: `researcher = create_researcher(search_tools) if search_tools
else None`. -/
def researcherOf (search_tools : List Tool) : Option Agent :=
  if search_tools.isEmpty then none else some (create_researcher search_tools)

/-- The task analyst exactly as built on every run: `create_task_analyst
(linear_tools)` with `linear_tools = [get_linear_task_tool]`. -/
def task_analyst : Agent := create_task_analyst [get_linear_task_tool]

/-- The code analyst exactly as built on every run: `create_code_analyst
(github_tools)` with `github_tools = [get_repo_structure_tool,
read_file_tool]`. -/
def code_analyst : Agent := create_code_analyst [get_repo_structure_tool, read_file_tool]

/-- The planner exactly as built on every run: `create_planner()`. -/
def planner : Agent := create_planner

/-- The first crew (lines 176–188): agents `[task_analyst, code_analyst,
planner]` with the researcher inserted at index 2 when present, tasks
`[task_analysis]`. -/
def analysisCrew (search_tools : List Tool) (task_identifier : String) : Crew :=
  { agents :=
      match researcherOf search_tools with
      | some r => listInsert 2 r [task_analyst, code_analyst, planner]
      | none => [task_analyst, code_analyst, planner]
    tasks := [create_task_analysis_task task_analyst task_identifier] }

/-- The code-exploration crew (lines 203–208). -/
def codeCrew (owner repo task_analysis_output : String) : Crew :=
  { agents := [code_analyst]
    tasks := [create_code_exploration_task code_analyst owner repo task_analysis_output] }

/-- The research crew (lines 216–221). -/
def researchCrewOf (r : Agent) (task_analysis_output : String) : Crew :=
  { agents := [r]
    tasks := [create_research_task r task_analysis_output] }

/-- The planning crew (lines 233–238). -/
def planningCrew (task_analysis_output code_context research_output : String) : Crew :=
  { agents := [planner]
    tasks := [create_planning_task planner task_analysis_output code_context research_output] }

/-- Lines 226–241 of `run_research_crew`: build the planning task from the
three context strings and kick off the planning crew; the result string is
returned unchanged. -/
def stage4 (env : Env) (task_analysis_output code_context research_output : String)
    (evs : List Event) : Except PipeError String × List Event :=
  let planning_tsk := create_planning_task planner task_analysis_output code_context research_output
  let crew := planningCrew task_analysis_output code_context research_output
  let evs := evs ++ [Event.taskBuilt planning_tsk]
  match env.kickoff crew with
  | .error e => (.error (.stageExecutionFailure e), evs ++ [Event.crewRun crew (.error e)])
  | .ok final_result => (.ok final_result, evs ++ [Event.crewRun crew (.ok final_result)])

/-- Lines 212–223: `research_output` starts as the fixed placeholder and is
replaced by the research crew's result only when `researcher and
search_tools` is truthy. -/
def stage3 (env : Env) (search_tools : List Tool) (researcher : Option Agent)
    (task_analysis_output code_context : String) (evs : List Event) :
    Except PipeError String × List Event :=
  let research_output := "No web research performed."
  match researcher with
  | some r =>
    if search_tools.isEmpty then
      stage4 env task_analysis_output code_context research_output evs
    else
      let research_tsk := create_research_task r task_analysis_output
      let crew := researchCrewOf r task_analysis_output
      let evs := evs ++ [Event.taskBuilt research_tsk]
      match env.kickoff crew with
      | .error e => (.error (.stageExecutionFailure e), evs ++ [Event.crewRun crew (.error e)])
      | .ok research_result =>
        stage4 env task_analysis_output code_context research_result
          (evs ++ [Event.crewRun crew (.ok research_result)])
  | none => stage4 env task_analysis_output code_context research_output evs

/-- Lines 196–210: build the code-exploration task from the task-analysis
output and kick off the code crew; a reasoning-layer exception here ends the
run before any later instruction is built. -/
def stage2 (env : Env) (search_tools : List Tool) (researcher : Option Agent)
    (owner repo task_analysis_output : String) (evs : List Event) :
    Except PipeError String × List Event :=
  let code_tsk := create_code_exploration_task code_analyst owner repo task_analysis_output
  let crew := codeCrew owner repo task_analysis_output
  let evs := evs ++ [Event.taskBuilt code_tsk]
  match env.kickoff crew with
  | .error e => (.error (.stageExecutionFailure e), evs ++ [Event.crewRun crew (.error e)])
  | .ok code_result =>
    stage3 env search_tools researcher task_analysis_output code_result
      (evs ++ [Event.crewRun crew (.ok code_result)])

/-- The body of `run_research_crew` after the two credential wrappers are
built: construct the three required tools (a constructor exception
propagates immediately — there is no handler), build the optional search
tool list and the agents, then run the four stages in sequence. -/
def run_research_crew_core (env : Env) (task_identifier owner repo : String)
    (enable_web_search : Bool) : Except PipeError String × List Event :=
  if env.toolCtorFails "get_linear_task" then
    (.error (.capabilityUnavailable "get_linear_task"), [])
  else if env.toolCtorFails "get_repo_structure" then
    (.error (.capabilityUnavailable "get_repo_structure"), [])
  else if env.toolCtorFails "read_file" then
    (.error (.capabilityUnavailable "read_file"), [])
  else
    let search_tools := searchToolsOf env enable_web_search
    let researcher := researcherOf search_tools
    let task_analysis_tsk := create_task_analysis_task task_analyst task_identifier
    let crew := analysisCrew search_tools task_identifier
    let evs := [Event.taskBuilt task_analysis_tsk]
    match env.kickoff crew with
    | .error e => (.error (.stageExecutionFailure e), evs ++ [Event.crewRun crew (.error e)])
    | .ok result =>
      stage2 env search_tools researcher owner repo result
        (evs ++ [Event.crewRun crew (.ok result)])

/-- Function `run_research_crew` of `src/crew/research.py`: first the two
credential wrappers are created from the tokens (lines 129–130); the tokens
flow nowhere else.  Returns the final plan text or the propagated error,
together with the run's event trace. -/
def run_research_crew (env : Env) (task_identifier owner repo linear_token github_token : String)
    (enable_web_search : Bool) : Except PipeError String × List Event :=
  let linear_tool : LinearTool := { token := linear_token }
  let github_tool : GitHubTool := { token := github_token }
  let core := run_research_crew_core env task_identifier owner repo enable_web_search
  (core.fst, Event.wrapperBuilt linear_tool github_tool :: core.snd)

/-- The rendered stage instructions of a run, in construction order. -/
def renderedInstructions (evs : List Event) : List String :=
  evs.filterMap fun ev =>
    match ev with
    | .taskBuilt t => some t.description
    | _ => none

/-- Whether the Research stage was handed to the reasoning layer: some kicked
off crew carries the researcher's task. -/
def researchExecuted (evs : List Event) : Bool :=
  evs.any fun ev =>
    match ev with
    | .crewRun c _ => c.tasks.any fun t => t.agent.role == "Technical Researcher"
    | _ => false

/-- The keycardai access context as `research_task` consumes it:
`has_errors()`, `get_errors()`, and the two `access(...).access_token`
exchanges (each may raise, modelled by `Except` with the exception's
`str(e)`). -/
structure AccessContext where
  has_errors : Bool
  get_errors : PyVal
  linearAccess : Except String String
  githubAccess : Except String String

/-- MCP tool `research_task` of `src/server.py` (lines 472–515).
`keycard_state` is the value of `ctx.get_state("keycardai")`; when it is
`None` the very first use `access_ctx.has_errors()` raises
`AttributeError` (the sibling tool `test_auth` guards this case,
`research_task` does not).  Every other path returns a dict, modelled as an
association list. -/
def research_task (env : Env) (keycard_state : Option AccessContext)
    (task_identifier owner repo : String) (enable_web_search : Bool) :
    Except PyExn (List (String × PyVal)) :=
  match keycard_state with
  | none => .error .attributeError
  | some access_ctx =>
    if access_ctx.has_errors then
      .ok [("error", .str "Authentication required"),
           ("details", access_ctx.get_errors),
           ("isError", .bool true)]
    else
      match access_ctx.linearAccess with
      | .error e => .ok [("error", .str ("Failed to get tokens: " ++ e)), ("isError", .bool true)]
      | .ok linear_token =>
        match access_ctx.githubAccess with
        | .error e => .ok [("error", .str ("Failed to get tokens: " ++ e)), ("isError", .bool true)]
        | .ok github_token =>
          match (run_research_crew env task_identifier owner repo
                  linear_token github_token enable_web_search).fst with
          | .ok plan =>
            .ok [("success", .bool true),
                 ("task", .str task_identifier),
                 ("repo", .str (owner ++ "/" ++ repo)),
                 ("implementation_plan", .str plan)]
          | .error e =>
            .ok [("error", .str ("Research crew failed: " ++ pipeErrorMsg e)),
                 ("isError", .bool true)]

/-- Substring containment: `sub` occurs literally (contiguously) in `s`. -/
def strIncludes (sub s : String) : Prop := sub.data <:+: s.data

/-- A string occurs literally in any concatenation that embeds it. -/
theorem strIncludes_middle (a m b : String) : strIncludes m (a ++ m ++ b) := by
  unfold strIncludes
  simp only [String.data_append]
  exact List.infix_append a.data m.data b.data

/-- Claim C7 — Run Result identity: in the example scenario (task "ENG-123",
owner "acme", repo "widgets", no search capability configured, i.e. the
`SerperDevTool` constructor raised), a run whose stages all complete returns
exactly the Planning stage's result `rp`, with no additional transformation. -/
theorem c7_run_result_is_planning_result (env : Env) (lt gt s0 r1 r2 rp : String)
    (hser : env.serperCtor = .error s0)
    (htools : ∀ n, env.toolCtorFails n = false)
    (h1 : env.kickoff (analysisCrew [] "ENG-123") = .ok r1)
    (h2 : env.kickoff (codeCrew "acme" "widgets" r1) = .ok r2)
    (h3 : env.kickoff (planningCrew r1 r2 "No web research performed.") = .ok rp) :
    (run_research_crew env "ENG-123" "acme" "widgets" lt gt true).fst = .ok rp := by
  simp [run_research_crew, run_research_crew_core, stage2, stage3, stage4,
    searchToolsOf, researcherOf, htools, hser, h1, h2, h3]

/-- An environment with no search provider configured and a reasoning layer
answering "plan" to every stage; used to instantiate the hypotheses of the
theorems above and below at concrete inputs. -/
def envNoSearch : Env :=
  { toolCtorFails := fun _ => false
    serperCtor := .error "SERPER_API_KEY not set"
    kickoff := fun _ => .ok "plan" }

/-- Witness for C7: the hypotheses hold in `envNoSearch` and the run returns
the planning result. -/
theorem c7_run_result_is_planning_result_witness :
    (run_research_crew envNoSearch "ENG-123" "acme" "widgets" "tokL" "tokG" true).fst
      = .ok "plan" :=
  c7_run_result_is_planning_result envNoSearch "tokL" "tokG" "SERPER_API_KEY not set"
    "plan" "plan" "plan" rfl (fun _ => rfl) rfl rfl rfl

/-- Claim C4 — Research-skipped placeholder: whenever the search tool list is
empty (web search disabled, or the search capability absent), a run whose
first two stages complete builds the Planning instruction with the research
slot equal to the fixed placeholder, and that instruction contains the exact
literal substring "No web research performed.". -/
theorem c4_research_skipped_placeholder (env : Env) (ti owner repo lt gt r1 r2 : String)
    (ws : Bool)
    (hskip : searchToolsOf env ws = [])
    (htools : ∀ n, env.toolCtorFails n = false)
    (h1 : env.kickoff (analysisCrew [] ti) = .ok r1)
    (h2 : env.kickoff (codeCrew owner repo r1) = .ok r2) :
    Event.taskBuilt (create_planning_task planner r1 r2 "No web research performed.")
        ∈ (run_research_crew env ti owner repo lt gt ws).snd
    ∧ strIncludes "No web research performed."
        (create_planning_task planner r1 r2 "No web research performed.").description := by
  constructor
  · rcases hk : env.kickoff (planningCrew r1 r2 "No web research performed.") with e | fr <;>
      simp [run_research_crew, run_research_crew_core, stage2, stage3, stage4,
        researcherOf, hskip, htools, h1, h2, hk]
  · simp only [create_planning_task]
    exact strIncludes_middle _ _ _

/-- Witness for C4: concrete skipped-research run in `envNoSearch`. -/
theorem c4_research_skipped_placeholder_witness :
    Event.taskBuilt (create_planning_task planner "plan" "plan" "No web research performed.")
        ∈ (run_research_crew envNoSearch "LIN-7" "acme" "widgets" "tokL" "tokG" true).snd
    ∧ strIncludes "No web research performed."
        (create_planning_task planner "plan" "plan" "No web research performed.").description :=
  c4_research_skipped_placeholder envNoSearch "LIN-7" "acme" "widgets" "tokL" "tokG"
    "plan" "plan" true rfl (fun _ => rfl) rfl rfl

/-- Claim C8 — Verbatim context round-trip: when a search capability was
constructed and web search is enabled, the Research stage's rendered
instruction is built and literally embeds the Task-Analysis stage result
verbatim as a substring. -/
theorem c8_research_embeds_analysis (env : Env) (ti owner repo lt gt r1 r2 : String)
    (st : Tool)
    (hser : env.serperCtor = .ok st)
    (htools : ∀ n, env.toolCtorFails n = false)
    (h1 : env.kickoff (analysisCrew [st] ti) = .ok r1)
    (h2 : env.kickoff (codeCrew owner repo r1) = .ok r2) :
    Event.taskBuilt (create_research_task (create_researcher [st]) r1)
        ∈ (run_research_crew env ti owner repo lt gt true).snd
    ∧ strIncludes r1 (create_research_task (create_researcher [st]) r1).description := by
  constructor
  · rcases hk3 : env.kickoff (researchCrewOf (create_researcher [st]) r1) with e3 | r3
    · simp [run_research_crew, run_research_crew_core, stage2, stage3, stage4,
        researcherOf, searchToolsOf, hser, htools, h1, h2, hk3]
    · rcases hk4 : env.kickoff (planningCrew r1 r2 r3) with e4 | r4 <;>
        simp [run_research_crew, run_research_crew_core, stage2, stage3, stage4,
          researcherOf, searchToolsOf, hser, htools, h1, h2, hk3, hk4]
  · simp only [create_research_task]
    exact strIncludes_middle _ _ _

/-- An environment whose search provider is configured, with a reasoning
layer answering "plan" to every stage. -/
def envWithSearch : Env :=
  { toolCtorFails := fun _ => false
    serperCtor := .ok { name := "serper_search", description := "Search the web" }
    kickoff := fun _ => .ok "plan" }

/-- Witness for C8: concrete researched run in `envWithSearch`. -/
theorem c8_research_embeds_analysis_witness :
    Event.taskBuilt (create_research_task
        (create_researcher [{ name := "serper_search", description := "Search the web" }]) "plan")
        ∈ (run_research_crew envWithSearch "LIN-7" "acme" "widgets" "tokL" "tokG" true).snd
    ∧ strIncludes "plan" (create_research_task
        (create_researcher [{ name := "serper_search", description := "Search the web" }])
        "plan").description :=
  c8_research_embeds_analysis envWithSearch "LIN-7" "acme" "widgets" "tokL" "tokG"
    "plan" "plan" { name := "serper_search", description := "Search the web" }
    rfl (fun _ => rfl) rfl rfl

/-- Event predicate: the event is not the construction of a Planning-stage
instruction (a task assigned to the Implementation Planner role). -/
def notPlanningBuilt : Event → Bool
| .taskBuilt t => t.agent.role != "Implementation Planner"
| _ => true

/-- Claim C5 — Failure propagation with no partial result: if the reasoning
layer raises during the Code-Exploration stage, the run ends with a
`stageExecutionFailure` (no plan text is returned) and no Planning-stage
instruction was ever constructed during the run. -/
theorem c5_code_failure_no_partial_result (env : Env) (ti owner repo lt gt r1 e : String)
    (ws : Bool)
    (htools : ∀ n, env.toolCtorFails n = false)
    (h1 : env.kickoff (analysisCrew (searchToolsOf env ws) ti) = .ok r1)
    (h2 : env.kickoff (codeCrew owner repo r1) = .error e) :
    (run_research_crew env ti owner repo lt gt ws).fst
        = .error (.stageExecutionFailure e)
    ∧ ((run_research_crew env ti owner repo lt gt ws).snd.all notPlanningBuilt) = true := by
  constructor <;>
    simp [run_research_crew, run_research_crew_core, stage2, notPlanningBuilt,
      htools, h1, h2, task_analyst, create_task_analyst, code_analyst, create_code_analyst,
      create_task_analysis_task, create_code_exploration_task]

/-- An environment whose reasoning layer succeeds on the three-agent analysis
crew but raises on every single-agent crew — in particular on the
Code-Exploration crew, which is the first single-agent crew a run reaches. -/
def envCodeFails : Env :=
  { toolCtorFails := fun _ => false
    serperCtor := .error "SERPER_API_KEY not set"
    kickoff := fun c => if c.agents.length == 3 then .ok "analysis" else .error "boom" }

/-- Witness for C5: in `envCodeFails` the code stage raises and the run fails
with no planning instruction built. -/
theorem c5_code_failure_no_partial_result_witness :
    (run_research_crew envCodeFails "LIN-7" "acme" "widgets" "tokL" "tokG" false).fst
        = .error (.stageExecutionFailure "boom")
    ∧ ((run_research_crew envCodeFails "LIN-7" "acme" "widgets" "tokL" "tokG" false).snd.all
        notPlanningBuilt) = true :=
  c5_code_failure_no_partial_result envCodeFails "LIN-7" "acme" "widgets" "tokL" "tokG"
    "analysis" "boom" false (fun _ => rfl) rfl rfl

/-- Trace predicate: the run performed no stage activity at all — no
instruction was built and no crew was handed to the reasoning layer (only the
credential wrappers were created). -/
def noStageActivity (evs : List Event) : Bool :=
  evs.all fun ev =>
    match ev with
    | .wrapperBuilt _ _ => true
    | _ => false

/-- Claim C9 — Required-capability construction failure is pre-stage fatal:
if any of the three required tool constructions (`get_linear_task`,
`get_repo_structure`, `read_file`) raises, the run fails with
`capabilityUnavailable` and no stage was built or executed. -/
theorem c9_required_capability_failure_prestage (env : Env) (ti owner repo lt gt : String)
    (ws : Bool)
    (hfail : env.toolCtorFails "get_linear_task" = true
      ∨ env.toolCtorFails "get_repo_structure" = true
      ∨ env.toolCtorFails "read_file" = true) :
    (∃ n, (run_research_crew env ti owner repo lt gt ws).fst
        = .error (.capabilityUnavailable n))
    ∧ noStageActivity (run_research_crew env ti owner repo lt gt ws).snd = true := by
  by_cases hA : env.toolCtorFails "get_linear_task" = true
  · exact ⟨⟨"get_linear_task", by
      simp [run_research_crew, run_research_crew_core, hA]⟩, by
      simp [run_research_crew, run_research_crew_core, noStageActivity, hA]⟩
  · by_cases hB : env.toolCtorFails "get_repo_structure" = true
    · exact ⟨⟨"get_repo_structure", by
        simp [run_research_crew, run_research_crew_core, hA, hB]⟩, by
        simp [run_research_crew, run_research_crew_core, noStageActivity, hA, hB]⟩
    · have hC : env.toolCtorFails "read_file" = true := by tauto
      exact ⟨⟨"read_file", by
        simp [run_research_crew, run_research_crew_core, hA, hB, hC]⟩, by
        simp [run_research_crew, run_research_crew_core, noStageActivity, hA, hB, hC]⟩

/-- An environment where the `@tool("get_linear_task")` construction raises. -/
def envLinearToolFails : Env :=
  { toolCtorFails := fun n => n == "get_linear_task"
    serperCtor := .error "SERPER_API_KEY not set"
    kickoff := fun _ => .ok "plan" }

/-- Witness for C9: with the issue-fetch tool construction failing, the run
aborts before any stage. -/
theorem c9_required_capability_failure_prestage_witness :
    (∃ n, (run_research_crew envLinearToolFails "LIN-7" "acme" "widgets" "tokL" "tokG" true).fst
        = .error (.capabilityUnavailable n))
    ∧ noStageActivity
        (run_research_crew envLinearToolFails "LIN-7" "acme" "widgets" "tokL" "tokG" true).snd
        = true :=
  c9_required_capability_failure_prestage envLinearToolFails "LIN-7" "acme" "widgets"
    "tokL" "tokG" true (Or.inl rfl)

/-- Whether the optional search capability was successfully constructed. -/
def serperOk (env : Env) : Bool :=
  match env.serperCtor with
  | .ok _ => true
  | .error _ => false

/-- Claim C3 — Research-branch decision: in a run that reaches the decision
point (required tools built and the first two stages completed), the Research
stage executes iff web search was enabled and the search capability was
constructed; and any exception during search-capability construction is
swallowed — it never surfaces as a pipeline error and only disables the
Research stage, the whole run being identical to a run with web search
disabled. -/
theorem c3_research_branch_decision (env : Env) (ti owner repo lt gt r1 r2 : String)
    (ws : Bool)
    (htools : ∀ n, env.toolCtorFails n = false)
    (h1 : env.kickoff (analysisCrew (searchToolsOf env ws) ti) = .ok r1)
    (h2 : env.kickoff (codeCrew owner repo r1) = .ok r2) :
    researchExecuted (run_research_crew env ti owner repo lt gt ws).snd
        = (ws && serperOk env)
    ∧ (∀ e, env.serperCtor = .error e →
        run_research_crew env ti owner repo lt gt true
          = run_research_crew env ti owner repo lt gt false) := by
  constructor
  · rcases hser : env.serperCtor with e | st <;> cases ws
    · rcases hk : env.kickoff (planningCrew r1 r2 "No web research performed.") with e4 | r4 <;>
        simp_all [run_research_crew, run_research_crew_core, stage2, stage3, stage4,
          researchExecuted, serperOk, searchToolsOf, researcherOf,
          analysisCrew, codeCrew, planningCrew, create_task_analysis_task,
          create_code_exploration_task, create_planning_task,
          task_analyst, create_task_analyst, code_analyst, create_code_analyst,
          planner, create_planner]
    · rcases hk : env.kickoff (planningCrew r1 r2 "No web research performed.") with e4 | r4 <;>
        simp_all [run_research_crew, run_research_crew_core, stage2, stage3, stage4,
          researchExecuted, serperOk, searchToolsOf, researcherOf,
          analysisCrew, codeCrew, planningCrew, create_task_analysis_task,
          create_code_exploration_task, create_planning_task,
          task_analyst, create_task_analyst, code_analyst, create_code_analyst,
          planner, create_planner]
    · rcases hk : env.kickoff (planningCrew r1 r2 "No web research performed.") with e4 | r4 <;>
        simp_all [run_research_crew, run_research_crew_core, stage2, stage3, stage4,
          researchExecuted, serperOk, searchToolsOf, researcherOf,
          analysisCrew, codeCrew, planningCrew, create_task_analysis_task,
          create_code_exploration_task, create_planning_task,
          task_analyst, create_task_analyst, code_analyst, create_code_analyst,
          planner, create_planner]
    · rcases hk3 : env.kickoff (researchCrewOf (create_researcher [st]) r1) with e3 | r3
      · simp_all [run_research_crew, run_research_crew_core, stage2, stage3,
          researchExecuted, serperOk, searchToolsOf, researcherOf, researchCrewOf,
          create_research_task, create_researcher]
      · rcases hk4 : env.kickoff (planningCrew r1 r2 r3) with e4 | r4 <;>
          simp_all [run_research_crew, run_research_crew_core, stage2, stage3, stage4,
            researchExecuted, serperOk, searchToolsOf, researcherOf, researchCrewOf,
            create_research_task, create_researcher]
  · intro e he
    simp [run_research_crew, run_research_crew_core, searchToolsOf, he]

/-- Witness for C3: in `envWithSearch` the research stage executes, and the
hypotheses of the theorem hold concretely. -/
theorem c3_research_branch_decision_witness :
    researchExecuted
        (run_research_crew envWithSearch "LIN-7" "acme" "widgets" "tokL" "tokG" true).snd
        = (true && serperOk envWithSearch)
    ∧ (∀ e, envWithSearch.serperCtor = .error e →
        run_research_crew envWithSearch "LIN-7" "acme" "widgets" "tokL" "tokG" true
          = run_research_crew envWithSearch "LIN-7" "acme" "widgets" "tokL" "tokG" false) :=
  c3_research_branch_decision envWithSearch "LIN-7" "acme" "widgets" "tokL" "tokG"
    "plan" "plan" true (fun _ => rfl) rfl rfl

/-- Claim C2 — Credential confinement: two runs that differ only in the token
values render identical stage instructions; the tokens are captured only by
the `LinearTool` / `GitHubTool` wrapper objects built at the start of the run
and reach no instruction text handed to the reasoning layer. -/
theorem c2_credential_confinement (env : Env) (ti owner repo lt lt2 gt gt2 : String)
    (ws : Bool) :
    renderedInstructions (run_research_crew env ti owner repo lt gt ws).snd
      = renderedInstructions (run_research_crew env ti owner repo lt2 gt2 ws).snd := by
  simp [run_research_crew, renderedInstructions]

/-- Least-privilege property of one agent: the task-analysis role carries
exactly the issue-fetch tool, the code role exactly the structure/file tools,
and the planner no tool at all. -/
def agentLeastPrivilege (a : Agent) : Bool :=
  (a.role != "Task Requirements Analyst" || a.tools == [get_linear_task_tool]) &&
  ((a.role != "Codebase Analyst" || a.tools == [get_repo_structure_tool, read_file_tool]) &&
   (a.role != "Implementation Planner" || a.tools == []))

/-- Least-privilege property of one run event: every agent of every crew
handed to the reasoning layer satisfies `agentLeastPrivilege`. -/
def eventLeastPrivilege : Event → Bool
| .crewRun c _ => c.agents.all agentLeastPrivilege
| _ => true

theorem agentLP_task_analyst : agentLeastPrivilege task_analyst = true := by decide

theorem agentLP_code_analyst : agentLeastPrivilege code_analyst = true := by decide

theorem agentLP_planner : agentLeastPrivilege planner = true := by decide

theorem agentLP_researcher (st : List Tool) :
    agentLeastPrivilege (create_researcher st) = true := by
  simp [agentLeastPrivilege, create_researcher]

theorem analysisCrew_LP (st : List Tool) (ti : String) :
    (analysisCrew st ti).agents.all agentLeastPrivilege = true := by
  unfold analysisCrew researcherOf
  by_cases h : st.isEmpty <;>
    simp [h, listInsert, agentLP_task_analyst, agentLP_code_analyst, agentLP_planner,
      agentLP_researcher]

theorem stage4_LP (env : Env) (ta c ro : String) (evs : List Event)
    (h : evs.all eventLeastPrivilege = true) :
    ((stage4 env ta c ro evs).snd.all eventLeastPrivilege) = true := by
  simp only [stage4]
  rcases hk : env.kickoff (planningCrew ta c ro) with e | r <;>
    simp [h, eventLeastPrivilege, planningCrew, agentLP_planner]

theorem stage3_LP (env : Env) (search_tools : List Tool) (researcher : Option Agent)
    (ta c : String) (evs : List Event)
    (h : evs.all eventLeastPrivilege = true)
    (hr : ∀ r, researcher = some r → agentLeastPrivilege r = true) :
    ((stage3 env search_tools researcher ta c evs).snd.all eventLeastPrivilege) = true := by
  rcases researcher with _ | r
  · exact stage4_LP env ta c _ evs h
  · have hLP : agentLeastPrivilege r = true := hr r rfl
    by_cases hempty : search_tools.isEmpty = true
    · simp only [stage3]
      rw [if_pos hempty]
      exact stage4_LP env ta c _ evs h
    · simp only [stage3]
      rw [if_neg hempty]
      rcases hk : env.kickoff (researchCrewOf r ta) with e | rr
      · simp [h, eventLeastPrivilege, researchCrewOf, hLP]
      · refine stage4_LP env ta c rr _ ?_
        simp [h, eventLeastPrivilege, researchCrewOf, hLP]

theorem stage2_LP (env : Env) (search_tools : List Tool) (researcher : Option Agent)
    (owner repo ta : String) (evs : List Event)
    (h : evs.all eventLeastPrivilege = true)
    (hr : ∀ r, researcher = some r → agentLeastPrivilege r = true) :
    ((stage2 env search_tools researcher owner repo ta evs).snd.all eventLeastPrivilege)
      = true := by
  simp only [stage2]
  rcases hk : env.kickoff (codeCrew owner repo ta) with e | cr
  · simp [h, eventLeastPrivilege, codeCrew, agentLP_code_analyst]
  · refine stage3_LP env search_tools researcher ta cr _ ?_ hr
    simp [h, eventLeastPrivilege, codeCrew, agentLP_code_analyst]

theorem core_LP (env : Env) (ti owner repo : String) (ws : Bool) :
    ((run_research_crew_core env ti owner repo ws).snd.all eventLeastPrivilege) = true := by
  simp only [run_research_crew_core]
  by_cases hA : env.toolCtorFails "get_linear_task" = true
  · simp [hA]
  · by_cases hB : env.toolCtorFails "get_repo_structure" = true
    · simp [hA, hB]
    · by_cases hC : env.toolCtorFails "read_file" = true
      · simp [hA, hB, hC]
      · have hr : ∀ r, researcherOf (searchToolsOf env ws) = some r →
            agentLeastPrivilege r = true := by
          intro r hrr
          unfold researcherOf at hrr
          by_cases hempty : (searchToolsOf env ws).isEmpty
          · simp [hempty] at hrr
          · simp [hempty] at hrr
            subst hrr
            exact agentLP_researcher _
        rw [if_neg hA, if_neg hB, if_neg hC]
        rcases hk : env.kickoff (analysisCrew (searchToolsOf env ws) ti) with e | r1
        · simp [eventLeastPrivilege, analysisCrew_LP]
        · refine stage2_LP env _ _ owner repo r1 _ ?_ hr
          simp [eventLeastPrivilege, analysisCrew_LP]

/-- Claim C1 — Role least-privilege binding: in every run, every agent of
every crew handed to the reasoning layer satisfies least privilege (the
task-analysis role carries only the issue-fetch tool, the code role only the
structure/file tools, the planner none); in particular the task-analysis
role's tools never include a directory-listing or file-reading capability,
and the planner is constructed with an empty capability set. -/
theorem c1_role_least_privilege (env : Env) (ti owner repo lt gt : String) (ws : Bool) :
    ((run_research_crew env ti owner repo lt gt ws).snd.all eventLeastPrivilege) = true
    ∧ (task_analyst.tools.all fun t =>
        t.name != "list_directory" && t.name != "read_file"
          && t.name != "get_repo_structure") = true
    ∧ planner.tools = [] := by
  refine ⟨?_, by decide, rfl⟩
  have hcore := core_LP env ti owner repo ws
  simp [run_research_crew, eventLeastPrivilege, hcore]

/-- Claim C6 — Capability invocation never raises on missing or expired
authorization: with any non-200 response (e.g. 401 for a missing/expired
credential) the structure and file tools return an `ok` textual error payload
rather than raising, the Linear tool always returns the response body as
text, and a run whose reasoning layer succeeds on every stage returns the
plan — capability-level failures never fail the pipeline. -/
theorem c6_capability_unauthorized_textual (lt : LinearTool) (g : GitHubTool) (http : Http)
    (b64 : String → Except PyExn String) (identifier owner repo path : String)
    (hs : (http (g.structureRequest owner repo path)).status ≠ 200)
    (hf : (http (g.fileRequest owner repo path "main")).status ≠ 200) :
    get_repo_structure_tool_run g http owner repo path
      = .ok (pyRepr (.dict (.cons "error"
          (.str ("Status " ++ toString (http (g.structureRequest owner repo path)).status))
          .nil)))
    ∧ read_file_tool_run g http b64 owner repo path
      = .ok (pyRepr (.dict (.cons "error"
          (.str ("Status " ++ toString (http (g.fileRequest owner repo path "main")).status))
          .nil)))
    ∧ get_linear_task_tool_run lt http identifier
      = pyRepr ((http (lt.taskRequest identifier)).json)
    ∧ (∀ (env : Env) (ti r1 r2 rp ltk gtk : String),
        (∀ n, env.toolCtorFails n = false) →
        env.kickoff (analysisCrew [] ti) = .ok r1 →
        env.kickoff (codeCrew owner repo r1) = .ok r2 →
        env.kickoff (planningCrew r1 r2 "No web research performed.") = .ok rp →
        (run_research_crew env ti owner repo ltk gtk false).fst = .ok rp) := by
  refine ⟨?_, ?_, rfl, ?_⟩
  · simp [get_repo_structure_tool_run, GitHubTool.get_structure, hs, Except.map]
  · simp [read_file_tool_run, GitHubTool.read_file, hf, Except.map]
  · intro env ti r1 r2 rp ltk gtk htools h1 h2 h3
    simp [run_research_crew, run_research_crew_core, stage2, stage3, stage4,
      searchToolsOf, researcherOf, htools, h1, h2, h3]

/-- A network on which every request is answered 401 with a JSON error body,
modelling a revoked or expired credential. -/
def http401 : Http := fun _ =>
  { status := 401, json := .dict (.cons "message" (.str "Bad credentials") .nil) }

/-- Base64 decoding oracle used in witnesses. -/
def b64ok : String → Except PyExn String := fun s => .ok s

/-- Witness for C6: a concrete expired-credential network satisfies the
hypotheses and the tools answer with the "Status 401" payload. -/
theorem c6_capability_unauthorized_textual_witness :
    get_repo_structure_tool_run { token := "gtok" } http401 "acme" "widgets" "src"
      = .ok (pyRepr (.dict (.cons "error"
          (.str ("Status " ++ toString (http401
            (GitHubTool.structureRequest { token := "gtok" } "acme" "widgets" "src")).status))
          .nil)))
    ∧ read_file_tool_run { token := "gtok" } http401 b64ok "acme" "widgets" "src"
      = .ok (pyRepr (.dict (.cons "error"
          (.str ("Status " ++ toString (http401
            (GitHubTool.fileRequest { token := "gtok" } "acme" "widgets" "src" "main")).status))
          .nil)))
    ∧ get_linear_task_tool_run { token := "ltok" } http401 "ENG-123"
      = pyRepr ((http401 (LinearTool.taskRequest { token := "ltok" } "ENG-123")).json)
    ∧ (∀ (env : Env) (ti r1 r2 rp ltk gtk : String),
        (∀ n, env.toolCtorFails n = false) →
        env.kickoff (analysisCrew [] ti) = .ok r1 →
        env.kickoff (codeCrew "acme" "widgets" r1) = .ok r2 →
        env.kickoff (planningCrew r1 r2 "No web research performed.") = .ok rp →
        (run_research_crew env ti "acme" "widgets" ltk gtk false).fst = .ok rp) :=
  c6_capability_unauthorized_textual { token := "ltok" } { token := "gtok" } http401 b64ok
    "ENG-123" "acme" "widgets" "src" (by decide) (by decide)

/-- Claim C10 counterexample: the claim quantifies over every input, but when
the keycard auth state is absent (`ctx.get_state("keycardai")` is `None` —
the case the sibling `test_auth` tool explicitly guards), `research_task`
calls `has_errors()` on `None` and raises `AttributeError` instead of
returning a dict. -/
theorem c10_none_state_raises :
    research_task envNoSearch none "ENG-123" "acme" "widgets" true
      = .error .attributeError := rfl

/-- Claim C10 as amended: whenever the keycard auth state is present, the
`research_task` entry point never propagates an exception — it returns a
dict which either flags the failure (`"isError": true` with a human-readable
`"error"` string: authentication error, token-exchange failure, or any
exception from the crew) or reports success (`"success": true` with the plan
text under `"implementation_plan"`). -/
theorem c10_entrypoint_returns_dict (env : Env) (a : AccessContext)
    (ti owner repo : String) (ws : Bool) :
    ∃ d, research_task env (some a) ti owner repo ws = .ok d
      ∧ ((d.lookup "isError" = some (.bool true)
            ∧ ∃ m, d.lookup "error" = some (.str m))
         ∨ (d.lookup "success" = some (.bool true)
            ∧ ∃ p, d.lookup "implementation_plan" = some (.str p))) := by
  by_cases he : a.has_errors = true
  · refine ⟨[("error", .str "Authentication required"), ("details", a.get_errors),
      ("isError", .bool true)], ?_, Or.inl ⟨rfl, "Authentication required", rfl⟩⟩
    simp [research_task, he]
  · rcases hl : a.linearAccess with e | ltk
    · refine ⟨[("error", .str ("Failed to get tokens: " ++ e)), ("isError", .bool true)],
        ?_, Or.inl ⟨rfl, "Failed to get tokens: " ++ e, rfl⟩⟩
      simp [research_task, he, hl]
    · rcases hg : a.githubAccess with e | gtk
      · refine ⟨[("error", .str ("Failed to get tokens: " ++ e)), ("isError", .bool true)],
          ?_, Or.inl ⟨rfl, "Failed to get tokens: " ++ e, rfl⟩⟩
        simp [research_task, he, hl, hg]
      · rcases hr : (run_research_crew env ti owner repo ltk gtk ws).fst with pe | plan
        · refine ⟨[("error", .str ("Research crew failed: " ++ pipeErrorMsg pe)),
            ("isError", .bool true)],
            ?_, Or.inl ⟨rfl, "Research crew failed: " ++ pipeErrorMsg pe, rfl⟩⟩
          simp [research_task, he, hl, hg, hr]
        · refine ⟨[("success", .bool true), ("task", .str ti),
            ("repo", .str (owner ++ "/" ++ repo)), ("implementation_plan", .str plan)],
            ?_, Or.inr ⟨rfl, plan, rfl⟩⟩
          simp [research_task, he, hl, hg, hr]

end LinearGithubMCP
